import Mathlib

set_option maxRecDepth 100000

/-!
Verification of the authentication / rate-limiting core of the FastAPI
personal-library service, shallowly embedded in Lean 4.

The embedding follows the Python source:
  * `src/auth.py`       — password hashing (hashlib.sha256), JWT issue/verify
  * `src/main.py`       — rate-limit middleware, access gate, endpoints
  * `src/database/crud.py` — user / file CRUD over the store
Machine integers are `Nat` with explicit `% 2^32` where 32-bit overflow
matters (SHA-256); time is seconds as `Nat` (token clock) or `Int`
(wall-clock differences in the rate limiter).
-/

namespace LibraryService

/-! ### SHA-256 (the `hashlib.sha256(...).hexdigest()` used by `auth.py`)

A byte is a `Nat < 256`; a word is a `Nat < 2^32`.  The compression
function follows FIPS 180-4 directly. -/

def MOD32 : Nat := 4294967296

/-- 32-bit modular addition. -/
def wadd (a b : Nat) : Nat := (a + b) % MOD32

/-- 32-bit right rotation. -/
def rotr (n x : Nat) : Nat := ((x >>> n) ||| (x <<< (32 - n))) % MOD32

/-- 32-bit bitwise complement. -/
def wnot (x : Nat) : Nat := x ^^^ 4294967295

def bsig0 (x : Nat) : Nat := rotr 2 x ^^^ rotr 13 x ^^^ rotr 22 x

def bsig1 (x : Nat) : Nat := rotr 6 x ^^^ rotr 11 x ^^^ rotr 25 x

def ssig0 (x : Nat) : Nat := rotr 7 x ^^^ rotr 18 x ^^^ (x >>> 3)

def ssig1 (x : Nat) : Nat := rotr 17 x ^^^ rotr 19 x ^^^ (x >>> 10)

def ch (x y z : Nat) : Nat := (x &&& y) ^^^ (wnot x &&& z)

def maj (x y z : Nat) : Nat := (x &&& y) ^^^ (x &&& z) ^^^ (y &&& z)

/-- The 64 SHA-256 round constants of FIPS 180-4 (the fractional parts of
the cube roots of the first 64 primes), written in decimal. -/
def K : List Nat :=
  [1116352408, 1899447441, 3049323471, 3921009573, 961987163, 1508970993,
   2453635748, 2870763221, 3624381080, 310598401, 607225278, 1426881987,
   1925078388, 2162078206, 2614888103, 3248222580, 3835390401, 4022224774,
   264347078, 604807628, 770255983, 1249150122, 1555081692, 1996064986,
   2554220882, 2821834349, 2952996808, 3210313671, 3336571891, 3584528711,
   113926993, 338241895, 666307205, 773529912, 1294757372, 1396182291,
   1695183700, 1986661051, 2177026350, 2456956037, 2730485921, 2820302411,
   3259730800, 3345764771, 3516065817, 3600352804, 4094571909, 275423344,
   430227734, 506948616, 659060556, 883997877, 958139571, 1322822218,
   1537002063, 1747873779, 1955562222, 2024104815, 2227730452, 2361852424,
   2428436474, 2756734187, 3204031479, 3329325298]

/-- Running state of the eight 32-bit hash registers. -/
structure Hash8 where
  a : Nat
  b : Nat
  c : Nat
  d : Nat
  e : Nat
  f : Nat
  g : Nat
  h : Nat
deriving DecidableEq, Repr

/-- The SHA-256 initial hash value of FIPS 180-4, in decimal. -/
def initH : Hash8 :=
  ⟨1779033703, 3144134277, 1013904242, 2773480762,
   1359893119, 2600822924, 528734635, 1541459225⟩

/-- The 8 length bytes (big-endian bit count) closing the padding. -/
def lenBytes (bits : Nat) : List Nat :=
  [(bits >>> 56) % 256, (bits >>> 48) % 256, (bits >>> 40) % 256, (bits >>> 32) % 256,
   (bits >>> 24) % 256, (bits >>> 16) % 256, (bits >>> 8) % 256, bits % 256]

/-- FIPS 180-4 padding: a 0x80 byte, zeros to 56 mod 64, then the bit length. -/
def padMessage (msg : List Nat) : List Nat :=
  msg ++ [128] ++ List.replicate ((119 - msg.length % 64) % 64) 0 ++ lenBytes (8 * msg.length)

/-- Big-endian packing of bytes into 32-bit words. -/
def bytesToWords : List Nat → List Nat
  | b0 :: b1 :: b2 :: b3 :: rest => (((b0 * 256 + b1) * 256 + b2) * 256 + b3) :: bytesToWords rest
  | _ => []

/-- Split a byte list into 64-byte blocks; the fuel only bounds the
recursion depth (one unit per nonempty block) and never runs out when it
starts at the list length. -/
def toBlocksAux : Nat → List Nat → List (List Nat)
  | 0, _ => []
  | _, [] => []
  | fuel + 1, b :: bs => ((b :: bs).take 64) :: toBlocksAux fuel ((b :: bs).drop 64)

/-- Split a byte list into 64-byte blocks. -/
def toBlocks (l : List Nat) : List (List Nat) := toBlocksAux l.length l

/-- Extend the 16 message words to the 64-entry schedule. -/
def extendW (ws : List Nat) : List Nat :=
  (List.range 48).foldl (fun acc _ =>
    let n := acc.length
    let w := wadd (wadd (ssig1 (acc.getD (n - 2) 0)) (acc.getD (n - 7) 0))
                  (wadd (ssig0 (acc.getD (n - 15) 0)) (acc.getD (n - 16) 0))
    acc ++ [w]) ws

/-- One SHA-256 compression round. -/
def compressRound (w k : Nat) (s : Hash8) : Hash8 :=
  let t1 := wadd (wadd (wadd s.h (bsig1 s.e)) (wadd (ch s.e s.f s.g) k)) w
  let t2 := wadd (bsig0 s.a) (maj s.a s.b s.c)
  ⟨wadd t1 t2, s.a, s.b, s.c, wadd s.d t1, s.e, s.f, s.g⟩

/-- Process one 64-byte block. -/
def processBlock (hs : Hash8) (block : List Nat) : Hash8 :=
  let ws := extendW (bytesToWords block)
  let s := (List.range 64).foldl (fun s i => compressRound (ws.getD i 0) (K.getD i 0) s) hs
  ⟨wadd hs.a s.a, wadd hs.b s.b, wadd hs.c s.c, wadd hs.d s.d,
   wadd hs.e s.e, wadd hs.f s.f, wadd hs.g s.g, wadd hs.h s.h⟩

/-- Big-endian bytes of a 32-bit word. -/
def wordBytes (w : Nat) : List Nat :=
  [(w >>> 24) % 256, (w >>> 16) % 256, (w >>> 8) % 256, w % 256]

/-- SHA-256 of a byte list, as the 32 digest bytes. -/
def sha256bytes (msg : List Nat) : List Nat :=
  let fin := (toBlocks (padMessage msg)).foldl processBlock initH
  (([fin.a, fin.b, fin.c, fin.d, fin.e, fin.f, fin.g, fin.h]).map wordBytes).flatten

/-- Lowercase hex digit for a value below 16. -/
def hexDigit (n : Nat) : Char := if n < 10 then Char.ofNat (48 + n) else Char.ofNat (87 + n)

/-- Two lowercase hex characters of one byte. -/
def byteToHex (b : Nat) : List Char := [hexDigit (b / 16), hexDigit (b % 16)]

/-- Lowercase hex string of a byte list (Python `.hexdigest()`). -/
def bytesToHex (bs : List Nat) : String := String.mk ((bs.map byteToHex).flatten)

/-- `hashlib.sha256(bs).hexdigest()`. -/
def sha256hex (msg : List Nat) : String := bytesToHex (sha256bytes msg)

/-- UTF-8 bytes of one character (Python `str.encode()` on one code point). -/
def utf8Bytes (c : Char) : List Nat :=
  let n := c.toNat
  if n < 128 then [n]
  else if n < 2048 then [192 ||| (n >>> 6), 128 ||| (n &&& 63)]
  else if n < 65536 then
    [224 ||| (n >>> 12), 128 ||| ((n >>> 6) &&& 63), 128 ||| (n &&& 63)]
  else
    [240 ||| (n >>> 18), 128 ||| ((n >>> 12) &&& 63), 128 ||| ((n >>> 6) &&& 63), 128 ||| (n &&& 63)]

/-- UTF-8 encoding of a string (Python `password.encode()`). -/
def strBytes (s : String) : List Nat := (s.data.map utf8Bytes).flatten

/-! ### Credential hasher (`src/auth.py` lines 11-16) -/

/-- `hash_password`: `hashlib.sha256(password.encode()).hexdigest()`. -/
def hash_password (password : String) : String := sha256hex (strBytes password)

/-- `verify_password`: recompute the digest and compare. -/
def verify_password (plain_password hashed_password : String) : Bool :=
  hash_password plain_password == hashed_password

/-! ### Token codec (`src/auth.py` lines 6-8 and 19-38)

The JWT layer (`python-jose`) is embedded at the level the source uses it:
a token is the claim set plus the HMAC-SHA256-style signature recomputable
from the claim set and the signing key; `jwt.decode` checks the signature
against the given key and then rejects a token whose `exp` is strictly in
the past, raising a `JWTError` subclass either way.  Clock instants are
seconds since the epoch as `Nat`. -/

def SECRET_KEY : String := "my-super-secret-key-12345-for-jwt-tokens"

def ACCESS_TOKEN_EXPIRE_MINUTES : Nat := 30

/-- The claim set carried by a token: the `user_id` entry written by
`create_token` and the `exp` instant added before signing. -/
structure Claims where
  user_id : Nat
  exp : Nat
deriving DecidableEq, Repr

/-- A signed token: claims plus signature. -/
structure Token where
  claims : Claims
  sig : String
deriving DecidableEq, Repr

/-- The symmetric signature over a serialized claim set and key
(HS256 = HMAC-SHA256; what every claim needs from it is that verification
recomputes it from the presented claims and the key and compares). -/
def signPayload (c : Claims) (key : String) : String :=
  sha256hex (strBytes (toString c.user_id ++ "." ++ toString c.exp ++ "." ++ key))

/-- `jose.jwt.encode(claims, key)`. -/
def jwtEncode (c : Claims) (key : String) : Token :=
  { claims := c, sig := signPayload c key }

/-- `jose.jwt.decode(token, key, algorithms)`: signature check, then the
expiry check (`exp < now` is expired); both failures raise `JWTError`. -/
def jwtDecode (tok : Token) (key : String) (now : Nat) : Except Unit Claims :=
  if tok.sig = signPayload tok.claims key then
    if tok.claims.exp < now then Except.error () else Except.ok tok.claims
  else Except.error ()

/-- `create_token` issues the claim set `data` extended with
`exp = utcnow + 30 minutes` and signs it with `SECRET_KEY`. -/
def create_token (user_id : Nat) (now : Nat) : Token :=
  jwtEncode { user_id := user_id, exp := now + ACCESS_TOKEN_EXPIRE_MINUTES * 60 } SECRET_KEY

/-- The error response raised by the gate: status, body detail, and the
extra response headers passed to `HTTPException`. -/
structure HTTPError where
  status_code : Nat
  detail : String
  headers : List (String × String)
deriving DecidableEq, Repr

/-- `verify_token`: decode with `SECRET_KEY`; any `JWTError` becomes the one
generic 401 with the `WWW-Authenticate: Bearer` header. -/
def verify_token (tok : Token) (now : Nat) : Except HTTPError Claims :=
  match jwtDecode tok SECRET_KEY now with
  | Except.ok payload => Except.ok payload
  | Except.error _ =>
      Except.error ⟨401, "Invalid token", [("WWW-Authenticate", "Bearer")]⟩

/-! ### Data model (`src/database/models.py`, the slice the claims touch)

`created_at` / `uploaded_at` instants are abstract `Int` timestamps. -/

structure User where
  id : Nat
  email : String
  hashed_password : String
  created_at : Int
deriving DecidableEq, Repr

structure Author where
  id : Nat
  name : String
  bio : Option String
deriving DecidableEq, Repr

structure Book where
  id : Nat
  title : String
  description : Option String
  year : Option Nat
  author_id : Nat
  owner_id : Nat
deriving DecidableEq, Repr

/-- A stored file; `book` is the optional id of the attached book
(`Optional(Book)` in the Pony model). -/
structure StoredFile where
  id : Nat
  filename : String
  file_path : String
  uploaded_at : Int
  book : Option Nat
deriving DecidableEq, Repr

/-- The store slice the verified endpoints touch, with the auto-increment
counters of the primary keys. -/
structure Database where
  users : List User
  authors : List Author
  books : List Book
  files : List StoredFile
  nextUserId : Nat
  nextFileId : Nat
deriving DecidableEq, Repr

def emptyDb : Database := ⟨[], [], [], [], 1, 1⟩

/-! ### User CRUD (`src/database/crud.py` lines 55-80) -/

/-- `User.get(email=email)`: lookup under the unique email constraint. -/
def get_user_by_email (db : Database) (email : String) : Option User :=
  db.users.find? (fun u => u.email == email)

/-- `User.get(id=user_id)`. -/
def get_user_by_id (db : Database) (user_id : Nat) : Option User :=
  db.users.find? (fun u => u.id == user_id)

/-- `create_user`: refuse an existing email (store untouched), otherwise
insert the user with the hashed password and return it. -/
def create_user (db : Database) (email password : String) (now : Int) :
    Option User × Database :=
  match get_user_by_email db email with
  | some _ => (none, db)
  | none =>
      let user : User :=
        { id := db.nextUserId, email := email,
          hashed_password := hash_password password, created_at := now }
      (some user, { db with users := db.users ++ [user], nextUserId := db.nextUserId + 1 })

/-- `authenticate_user`: `None` unless the email exists and the password
digest matches. -/
def authenticate_user (db : Database) (email password : String) : Option User :=
  match get_user_by_email db email with
  | none => none
  | some user => if verify_password password user.hashed_password then some user else none

/-! ### Access gate and authentication endpoints (`src/main.py` lines 105-131) -/

/-- `get_current_user`: verify the bearer token, then resolve the user;
an unknown `user_id` raises 401 "Invalid user" (with no extra headers,
the `headers` argument being absent in the source at line 110). -/
def get_current_user (db : Database) (tok : Token) (now : Nat) :
    Except HTTPError User :=
  match verify_token tok now with
  | Except.error e => Except.error e
  | Except.ok payload =>
      match get_user_by_id db payload.user_id with
      | none => Except.error ⟨401, "Invalid user", []⟩
      | some user => Except.ok user

/-- The response model of `/register` (`UserResponse`). -/
structure UserResponse where
  id : Nat
  email : String
  created_at : Int
deriving DecidableEq, Repr

/-- `POST /register`: 400 when `create_user` refuses, else the new user. -/
def register (db : Database) (email password : String) (now : Int) :
    Except HTTPError UserResponse × Database :=
  match create_user db email password now with
  | (none, db2) => (Except.error ⟨400, "Email already registered", []⟩, db2)
  | (some u, db2) => (Except.ok ⟨u.id, u.email, u.created_at⟩, db2)

/-- The response of `/login`. -/
structure LoginResponse where
  access_token : Token
  token_type : String
deriving DecidableEq, Repr

/-- `POST /login`: 401 "Invalid credentials" when `authenticate_user`
returns `None`, else a fresh bearer token for the id of the user. -/
def login (db : Database) (email password : String) (now : Nat) :
    Except HTTPError LoginResponse :=
  match authenticate_user db email password with
  | none => Except.error ⟨401, "Invalid credentials", []⟩
  | some user => Except.ok ⟨create_token user.id now, "bearer"⟩

/-! ### Rate limiter (`src/main.py` lines 80-103)

`rate_limit_cache` is a dict from client address to the pair
`(requests, first_request)`; it is embedded as an association list with
dict lookup/assignment semantics.  Wall-clock instants are `Int` seconds so
that `now - first_request < timedelta(minutes=1)` is the integer comparison
`now - first < 60`. -/

/-- One `(requests, first_request)` cache value. -/
structure RateEntry where
  requests : Nat
  first_request : Int
deriving DecidableEq, Repr

/-- The `rate_limit_cache` dict. -/
abbrev RateCache : Type := List (String × RateEntry)

/-- Dict membership / item lookup. -/
def cacheGet : RateCache → String → Option RateEntry
  | [], _ => none
  | (k, v) :: rest, ip => if k = ip then some v else cacheGet rest ip

/-- Dict item assignment: overwrite the binding or add one. -/
def cacheSet : RateCache → String → RateEntry → RateCache
  | [], ip, e => [(ip, e)]
  | (k, v) :: rest, ip, e =>
      if k = ip then (k, e) :: rest else (k, v) :: cacheSet rest ip e

/-- The visible outcome of the middleware: pass the request on, or answer 429
with the generic body before any other processing. -/
inductive RateResult where
  | admitted : RateResult
  | rejected : Nat → String → RateResult
deriving DecidableEq, Repr

/-- One run of `rate_limit_middleware` for a request from `client_ip` at
instant `now`: the decision plus the updated cache. -/
def rate_limit_step (cache : RateCache) (client_ip : String) (now : Int) :
    RateResult × RateCache :=
  match cacheGet cache client_ip with
  | some entry =>
      if now - entry.first_request < 60 then
        if entry.requests ≥ 100 then
          (RateResult.rejected 429 "Too many requests", cache)
        else
          (RateResult.admitted, cacheSet cache client_ip ⟨entry.requests + 1, entry.first_request⟩)
      else
        (RateResult.admitted, cacheSet cache client_ip ⟨1, now⟩)
  | none => (RateResult.admitted, cacheSet cache client_ip ⟨1, now⟩)

/-- Sequential requests from one address at the given instants: the list of
decisions and the final cache. -/
def run_requests (ip : String) : RateCache → List Int → List RateResult × RateCache
  | cache, [] => ([], cache)
  | cache, t :: rest =>
      let s := rate_limit_step cache ip t
      let n := run_requests ip s.2 rest
      (s.1 :: n.1, n.2)

/-! ### Admin endpoints (`src/main.py` lines 418-454) -/

/-- The statistics body; `books_per_user` is the exact quotient (Python
computes it as float division). -/
structure Statistics where
  total_users : Nat
  total_books : Nat
  total_authors : Nat
  books_per_user : Rat
deriving DecidableEq, Repr

/-- `GET /admin/users`: 403 unless the caller has id 1, else every user. -/
def get_all_users (db : Database) (current_user : User) :
    Except HTTPError (List UserResponse) :=
  if current_user.id ≠ 1 then Except.error ⟨403, "Admin access required", []⟩
  else Except.ok (db.users.map (fun u => ⟨u.id, u.email, u.created_at⟩))

/-- `GET /admin/statistics`: 403 unless the caller has id 1, else the
global totals. -/
def get_statistics (db : Database) (current_user : User) :
    Except HTTPError Statistics :=
  if current_user.id ≠ 1 then Except.error ⟨403, "Admin access required", []⟩
  else
    let total_users := db.users.length
    let total_books := db.books.length
    let total_authors := db.authors.length
    Except.ok ⟨total_users, total_books, total_authors,
      if total_users > 0 then (total_books : Rat) / (total_users : Rat) else 0⟩

/-! ### File creation (`src/database/crud.py` lines 210-215 and
`src/main.py` lines 241-249) -/

/-- `crud.create_file`: `book = Book.get(id=book_id) if book_id else None`
(Python truthiness: `None` and `0` both skip the lookup), then the file is
stored unconditionally with that possibly-absent book. -/
def crud_create_file (db : Database) (filename file_path : String)
    (book_id : Option Nat) (now : Int) : StoredFile × Database :=
  let book : Option Book :=
    match book_id with
    | some bid => if bid ≠ 0 then db.books.find? (fun b => b.id == bid) else none
    | none => none
  let file : StoredFile :=
    { id := db.nextFileId, filename := filename, file_path := file_path,
      uploaded_at := now, book := book.map (fun b => b.id) }
  (file, { db with files := db.files ++ [file], nextFileId := db.nextFileId + 1 })

/-- `POST /files`: calls `crud.create_file` and returns the record with no
missing-book check of its own. -/
def create_file_route (db : Database) (filename file_path : String)
    (book_id : Option Nat) (now : Int) : Except HTTPError StoredFile × Database :=
  let r := crud_create_file db filename file_path book_id now
  (Except.ok r.1, r.2)

/-! ### Hex decoding, used only to relate digest-string equality back to
equality of the raw SHA-256 digests. -/

/-- Value of a lowercase hex character. -/
def hexVal (c : Char) : Nat := if c.toNat ≥ 87 then c.toNat - 87 else c.toNat - 48

/-- Decode pairs of hex characters back to bytes. -/
def unhexChars : List Char → List Nat
  | c1 :: c2 :: rest => (16 * hexVal c1 + hexVal c2) :: unhexChars rest
  | _ => []

/-! ## Validation of the SHA-256 embedding against the FIPS 180-4 vectors -/

/-- The embedded SHA-256 agrees with the standard test vector for "abc". -/
theorem sha256_vector_abc :
    sha256hex (strBytes "abc") =
      "ba7816bf8f01cfea414140de5dae2223b00361a396177a9cb410ff61f20015ad" := by
  decide

/-- The embedded SHA-256 agrees with the standard test vector for the
empty message. -/
theorem sha256_vector_empty :
    sha256hex (strBytes "") =
      "e3b0c44298fc1c149afbf4c8996fb92427ae41e4649b934ca495991b7852b855" := by
  decide

/-! ## Token codec claims -/

/-- C3: for every user id `u`, verifying the token issued for `u` at any
instant up to the 30-minute TTL (in particular immediately after issuance)
succeeds and yields the claim set with `user_id = u` and the expiry the
codec wrote. -/
theorem token_roundtrip (u now t : Nat)
    (ht : t ≤ now + ACCESS_TOKEN_EXPIRE_MINUTES * 60) :
    verify_token (create_token u now) t =
      Except.ok { user_id := u, exp := now + ACCESS_TOKEN_EXPIRE_MINUTES * 60 } := by
  have h : ¬ (now + ACCESS_TOKEN_EXPIRE_MINUTES * 60 < t) := by omega
  simp [verify_token, create_token, jwtEncode, jwtDecode, h]

/-- C3 witness: the round-trip for user id 7, issued and verified at the
same instant 100. -/
theorem token_roundtrip_witness :
    verify_token (create_token 7 100) 100 =
      Except.ok { user_id := 7, exp := 100 + ACCESS_TOKEN_EXPIRE_MINUTES * 60 } :=
  token_roundtrip 7 100 100 (by decide)

/-- C4: a token issued at `T` with the fixed 30-minute TTL fails
verification at `T + TTL + 1` with the generic invalid-token error and
succeeds at `T + TTL - 1`. -/
theorem token_expiry_boundary (u T : Nat) :
    verify_token (create_token u T) (T + ACCESS_TOKEN_EXPIRE_MINUTES * 60 + 1) =
      Except.error ⟨401, "Invalid token", [("WWW-Authenticate", "Bearer")]⟩ ∧
    verify_token (create_token u T) (T + ACCESS_TOKEN_EXPIRE_MINUTES * 60 - 1) =
      Except.ok { user_id := u, exp := T + ACCESS_TOKEN_EXPIRE_MINUTES * 60 } := by
  constructor
  · have h : T + ACCESS_TOKEN_EXPIRE_MINUTES * 60 < T + ACCESS_TOKEN_EXPIRE_MINUTES * 60 + 1 := by
      omega
    simp [verify_token, create_token, jwtEncode, jwtDecode, h]
  · have h : ¬ (T + ACCESS_TOKEN_EXPIRE_MINUTES * 60 < T + ACCESS_TOKEN_EXPIRE_MINUTES * 60 - 1) := by
      omega
    simp [verify_token, create_token, jwtEncode, jwtDecode, h]

/-! ## Admin endpoint claim -/

/-- C9: both admin endpoints are gated solely on the numeric id of the caller —
any authenticated user whose id differs from 1 gets 403 "Admin access
required" from each, and the id-1 user gets the full user list and the
global statistics. -/
theorem admin_endpoints_gate (db : Database) (u : User) :
    (u.id ≠ 1 →
      get_all_users db u = Except.error ⟨403, "Admin access required", []⟩ ∧
      get_statistics db u = Except.error ⟨403, "Admin access required", []⟩) ∧
    (u.id = 1 →
      get_all_users db u =
        Except.ok (db.users.map (fun v => ⟨v.id, v.email, v.created_at⟩)) ∧
      get_statistics db u =
        Except.ok ⟨db.users.length, db.books.length, db.authors.length,
          if db.users.length > 0 then (db.books.length : Rat) / (db.users.length : Rat)
          else 0⟩) := by
  constructor
  · intro h
    exact ⟨by simp [get_all_users, h], by simp [get_statistics, h]⟩
  · intro h
    exact ⟨by simp [get_all_users, h], by simp [get_statistics, h]⟩

/-- C9 witness: the id-2 user is refused by both admin endpoints. -/
theorem admin_endpoints_gate_witness :
    get_all_users emptyDb ⟨2, "u@x.com", "d", 0⟩ =
      Except.error ⟨403, "Admin access required", []⟩ ∧
    get_statistics emptyDb ⟨2, "u@x.com", "d", 0⟩ =
      Except.error ⟨403, "Admin access required", []⟩ :=
  (admin_endpoints_gate emptyDb ⟨2, "u@x.com", "d", 0⟩).1 (by decide)

/-! ## File creation claim -/

/-- C10: creating a file whose `book_id` matches no stored book never
fails — the record is stored and returned with `book = None`, with no
not-found rejection. -/
theorem create_file_missing_book (db : Database) (filename file_path : String)
    (bid : Nat) (now : Int)
    (hmiss : ∀ b ∈ db.books, b.id ≠ bid) :
    (create_file_route db filename file_path (some bid) now).1 =
      Except.ok ⟨db.nextFileId, filename, file_path, now, none⟩ ∧
    (create_file_route db filename file_path (some bid) now).2 =
      { db with files := db.files ++ [⟨db.nextFileId, filename, file_path, now, none⟩],
                nextFileId := db.nextFileId + 1 } := by
  have hfind : db.books.find? (fun b => b.id == bid) = none := by
    rw [List.find?_eq_none]
    intro b hb
    simp [hmiss b hb]
  by_cases hz : bid = 0 <;>
    simp [create_file_route, crud_create_file, hfind, hz]

/-- C10 witness: a file pointing at the absent book id 2 is stored with no
book and returned. -/
theorem create_file_missing_book_witness :
    (create_file_route ⟨[], [⟨1, "A", none⟩], [⟨1, "T", none, none, 1, 1⟩], [], 2, 1⟩
        "cover.png" "/tmp/cover.png" (some 2) 0).1 =
      Except.ok ⟨1, "cover.png", "/tmp/cover.png", 0, none⟩ ∧
    (create_file_route ⟨[], [⟨1, "A", none⟩], [⟨1, "T", none, none, 1, 1⟩], [], 2, 1⟩
        "cover.png" "/tmp/cover.png" (some 2) 0).2 =
      ⟨[], [⟨1, "A", none⟩], [⟨1, "T", none, none, 1, 1⟩],
        [⟨1, "cover.png", "/tmp/cover.png", 0, none⟩], 2, 2⟩ :=
  create_file_missing_book ⟨[], [⟨1, "A", none⟩], [⟨1, "T", none, none, 1, 1⟩], [], 2, 1⟩
    "cover.png" "/tmp/cover.png" 2 0 (by decide)

/-! ## Access gate claim -/

/-- Every error `verify_token` raises is the one generic 401 carrying the
`WWW-Authenticate: Bearer` header. -/
theorem verify_token_error (tok : Token) (now : Nat) (e : HTTPError)
    (h : verify_token tok now = Except.error e) :
    e = ⟨401, "Invalid token", [("WWW-Authenticate", "Bearer")]⟩ := by
  unfold verify_token at h
  cases hd : jwtDecode tok SECRET_KEY now with
  | ok p => rw [hd] at h; cases h
  | error u => rw [hd] at h; cases h; rfl

/-- C1 counterexample: with a valid token whose `user_id` resolves to no
user, the gate answers 401 "Invalid user" with an empty header list — the
`WWW-Authenticate: Bearer` response header the claim requires on every
authentication failure is absent. -/
theorem access_gate_counterexample :
    get_current_user emptyDb (create_token 1 0) 0 =
      Except.error ⟨401, "Invalid user", []⟩ ∧
    ¬ (("WWW-Authenticate", "Bearer") ∈ ([] : List (String × String))) := by
  exact ⟨by rfl, by decide⟩

/-- C1 (amended): every failure of the gate is HTTP 401 and its detail is
exactly one of the two generic messages; the token-failure branch carries
the `WWW-Authenticate: Bearer` header while the unknown-user branch
carries no extra header. -/
theorem access_gate_errors (db : Database) (tok : Token) (now : Nat) (e : HTTPError)
    (h : get_current_user db tok now = Except.error e) :
    e.status_code = 401 ∧
    ((e.detail = "Invalid token" ∧ e.headers = [("WWW-Authenticate", "Bearer")]) ∨
     (e.detail = "Invalid user" ∧ e.headers = [])) := by
  unfold get_current_user at h
  split at h
  · rename_i e' hv
    cases h
    rw [verify_token_error tok now _ hv]
    exact ⟨rfl, Or.inl ⟨rfl, rfl⟩⟩
  · rename_i payload hv
    split at h
    · cases h
      exact ⟨rfl, Or.inr ⟨rfl, rfl⟩⟩
    · cases h

/-- C1 witness: the amended statement instantiated at a concrete failing
request (valid token, empty user store). -/
theorem access_gate_errors_witness :
    (HTTPError.mk 401 "Invalid user" []).status_code = 401 ∧
    (((HTTPError.mk 401 "Invalid user" []).detail = "Invalid token" ∧
        (HTTPError.mk 401 "Invalid user" []).headers = [("WWW-Authenticate", "Bearer")]) ∨
     ((HTTPError.mk 401 "Invalid user" []).detail = "Invalid user" ∧
        (HTTPError.mk 401 "Invalid user" []).headers = [])) :=
  access_gate_errors emptyDb (create_token 2 5) 5 ⟨401, "Invalid user", []⟩ (by rfl)

/-! ## Credential hasher claim -/

/-- Lowercase hex digits decode back to their value. -/
theorem hexVal_hexDigit : ∀ n, n < 16 → hexVal (hexDigit n) = n := by decide

/-- Decoding after encoding one byte peels it off. -/
theorem unhexChars_byteToHex (b : Nat) (hb : b < 256) (l : List Char) :
    unhexChars (byteToHex b ++ l) = b :: unhexChars l := by
  have h1 : hexVal (hexDigit (b / 16)) = b / 16 := hexVal_hexDigit _ (by omega)
  have h2 : hexVal (hexDigit (b % 16)) = b % 16 := hexVal_hexDigit _ (by omega)
  simp [byteToHex, unhexChars, h1, h2]
  omega

/-- Hex encoding of a byte list is lossless. -/
theorem unhexChars_bytesToHex (bs : List Nat) (h : ∀ b ∈ bs, b < 256) :
    unhexChars ((bs.map byteToHex).flatten) = bs := by
  induction bs with
  | nil => simp [unhexChars]
  | cons b rest ih =>
      simp only [List.map_cons, List.flatten_cons]
      rw [unhexChars_byteToHex b (h b (by simp)) _]
      rw [ih (fun x hx => h x (by simp [hx]))]

/-- Every byte a word emits is below 256. -/
theorem wordBytes_lt (w : Nat) : ∀ b ∈ wordBytes w, b < 256 := by
  intro b hb
  simp [wordBytes] at hb
  rcases hb with h | h | h | h <;> subst h <;> exact Nat.mod_lt _ (by norm_num)

/-- Every byte of a SHA-256 digest is below 256. -/
theorem sha256bytes_lt (msg : List Nat) : ∀ b ∈ sha256bytes msg, b < 256 := by
  intro b hb
  simp only [sha256bytes, List.mem_flatten] at hb
  obtain ⟨l, hl, hbl⟩ := hb
  rw [List.mem_map] at hl
  obtain ⟨w, _, rfl⟩ := hl
  exact wordBytes_lt w b hbl

/-- Equal hex digests come from equal raw digests: the hex presentation
adds no collisions. -/
theorem sha256hex_inj (m1 m2 : List Nat) (h : sha256hex m1 = sha256hex m2) :
    sha256bytes m1 = sha256bytes m2 := by
  have hc : ((sha256bytes m1).map byteToHex).flatten =
      ((sha256bytes m2).map byteToHex).flatten := by
    have := congrArg String.data h
    simpa [sha256hex, bytesToHex] using this
  calc sha256bytes m1
      = unhexChars ((sha256bytes m1).map byteToHex).flatten :=
        (unhexChars_bytesToHex _ (sha256bytes_lt m1)).symm
    _ = unhexChars ((sha256bytes m2).map byteToHex).flatten := by rw [hc]
    _ = sha256bytes m2 := unhexChars_bytesToHex _ (sha256bytes_lt m2)

/-- C5: a password always verifies against its own digest, and a
different plaintext verifies against it exactly when the two plaintexts
collide under SHA-256. -/
theorem password_hash_contract (p1 p2 : String) (hne : p1 ≠ p2) :
    verify_password p1 (hash_password p1) = true ∧
    (verify_password p1 (hash_password p2) = true ↔
      sha256bytes (strBytes p1) = sha256bytes (strBytes p2)) := by
  refine ⟨by simp [verify_password], ?_, ?_⟩
  · intro hv
    have heq : hash_password p1 = hash_password p2 := by
      simpa [verify_password] using hv
    exact sha256hex_inj _ _ heq
  · intro hb
    simp [verify_password, hash_password, sha256hex, hb]

/-- C5 witness: the contract instantiated at the distinct plaintexts
"pw1" and "pw2". -/
theorem password_hash_contract_witness :
    verify_password "pw1" (hash_password "pw1") = true ∧
    (verify_password "pw1" (hash_password "pw2") = true ↔
      sha256bytes (strBytes "pw1") = sha256bytes (strBytes "pw2")) :=
  password_hash_contract "pw1" "pw2" (by decide)

/-! ## Login indistinguishability claim -/

/-- C6: an unknown email and a registered email with a wrong password
produce the identical login response, HTTP 401 "Invalid credentials", so
the interface never reveals whether the email exists. -/
theorem login_indistinguishable (db : Database) (e1 pw1 e2 pw2 : String)
    (u : User) (now1 now2 : Nat)
    (h1 : get_user_by_email db e1 = none)
    (h2 : get_user_by_email db e2 = some u)
    (h3 : verify_password pw2 u.hashed_password = false) :
    login db e1 pw1 now1 = login db e2 pw2 now2 ∧
    login db e1 pw1 now1 = Except.error ⟨401, "Invalid credentials", []⟩ := by
  have l1 : login db e1 pw1 now1 = Except.error ⟨401, "Invalid credentials", []⟩ := by
    unfold login authenticate_user
    rw [h1]
  have l2 : login db e2 pw2 now2 = Except.error ⟨401, "Invalid credentials", []⟩ := by
    unfold login authenticate_user
    rw [h2]
    simp [h3]
  exact ⟨l1.trans l2.symm, l1⟩

/-- C6 witness: on a store holding only `a@x.com`, logging in as the
unknown `b@x.com` and as `a@x.com` with a wrong password give the same
401 "Invalid credentials" response. -/
theorem login_indistinguishable_witness :
    login ⟨[⟨1, "a@x.com", "d", 0⟩], [], [], [], 2, 1⟩ "b@x.com" "pw" 0 =
      login ⟨[⟨1, "a@x.com", "d", 0⟩], [], [], [], 2, 1⟩ "a@x.com" "bad" 7 ∧
    login ⟨[⟨1, "a@x.com", "d", 0⟩], [], [], [], 2, 1⟩ "b@x.com" "pw" 0 =
      Except.error ⟨401, "Invalid credentials", []⟩ :=
  login_indistinguishable ⟨[⟨1, "a@x.com", "d", 0⟩], [], [], [], 2, 1⟩
    "b@x.com" "pw" "a@x.com" "bad" ⟨1, "a@x.com", "d", 0⟩ 0 7
    (by rfl) (by rfl) (by rfl)

/-! ## Registration claim -/

/-- A search that misses the first list continues into the second. -/
theorem find?_append_none {α : Type} (p : α → Bool) (l1 l2 : List α)
    (h : l1.find? p = none) : (l1 ++ l2).find? p = l2.find? p := by
  induction l1 with
  | nil => simp
  | cons a rest ih =>
      by_cases hp : p a
      · rw [List.find?_cons_of_pos _ hp] at h
        cases h
      · rw [List.find?_cons_of_neg _ hp] at h
        rw [List.cons_append, List.find?_cons_of_neg _ hp]
        exact ih h

/-- Registration on a store that already holds the email fails with 400
and returns the store untouched. -/
theorem register_existing (db : Database) (email pw : String) (n : Int) (u0 : User)
    (h : get_user_by_email db email = some u0) :
    register db email pw n =
      (Except.error ⟨400, "Email already registered", []⟩, db) := by
  unfold register create_user
  rw [h]

/-- C7: registering a fresh email succeeds and returns the record with its
id; a second registration of the same email, whatever the password, fails
with 400, leaves the store unchanged, and the stored digest for that email
is still exactly the one the first registration wrote. -/
theorem register_duplicate (db : Database) (email pw1 pw2 : String) (n1 n2 : Int)
    (hfresh : get_user_by_email db email = none) :
    (register db email pw1 n1).1 = Except.ok ⟨db.nextUserId, email, n1⟩ ∧
    (register ((register db email pw1 n1).2) email pw2 n2).1 =
      Except.error ⟨400, "Email already registered", []⟩ ∧
    (register ((register db email pw1 n1).2) email pw2 n2).2 =
      (register db email pw1 n1).2 ∧
    (get_user_by_email ((register db email pw1 n1).2) email).map
        (fun u => u.hashed_password) = some (hash_password pw1) := by
  have hreg1 : register db email pw1 n1 =
      (Except.ok ⟨db.nextUserId, email, n1⟩,
       { db with
          users := db.users ++
            [⟨db.nextUserId, email, hash_password pw1, n1⟩],
          nextUserId := db.nextUserId + 1 }) := by
    unfold register create_user
    rw [hfresh]
  have hfound : get_user_by_email ((register db email pw1 n1).2) email =
      some ⟨db.nextUserId, email, hash_password pw1, n1⟩ := by
    rw [hreg1]
    unfold get_user_by_email at hfresh ⊢
    simp only
    rw [find?_append_none _ _ _ hfresh]
    simp
  refine ⟨by rw [hreg1], ?_, ?_, ?_⟩
  · rw [register_existing _ _ _ _ _ hfound]
  · rw [register_existing _ _ _ _ _ hfound]
  · rw [hfound]
    rfl

/-- C7 witness: registering `a@x.com` twice on the empty store. -/
theorem register_duplicate_witness :
    (register emptyDb "a@x.com" "pw1" 0).1 = Except.ok ⟨1, "a@x.com", 0⟩ ∧
    (register ((register emptyDb "a@x.com" "pw1" 0).2) "a@x.com" "pw2" 1).1 =
      Except.error ⟨400, "Email already registered", []⟩ ∧
    (register ((register emptyDb "a@x.com" "pw1" 0).2) "a@x.com" "pw2" 1).2 =
      (register emptyDb "a@x.com" "pw1" 0).2 ∧
    (get_user_by_email ((register emptyDb "a@x.com" "pw1" 0).2) "a@x.com").map
        (fun u => u.hashed_password) = some (hash_password "pw1") :=
  register_duplicate emptyDb "a@x.com" "pw1" "pw2" 0 1 (by rfl)

/-! ## Rate limiter claim -/

/-- Reading back a key just written. -/
theorem cacheGet_cacheSet (c : RateCache) (ip : String) (e : RateEntry) :
    cacheGet (cacheSet c ip e) ip = some e := by
  induction c with
  | nil => simp [cacheGet, cacheSet]
  | cons kv rest ih =>
      obtain ⟨k, v⟩ := kv
      by_cases h : k = ip <;> simp [cacheGet, cacheSet, h, ih]

/-- Two writes to the same key collapse to the last. -/
theorem cacheSet_cacheSet (c : RateCache) (ip : String) (e e2 : RateEntry) :
    cacheSet (cacheSet c ip e) ip e2 = cacheSet c ip e2 := by
  induction c with
  | nil => simp [cacheSet]
  | cons kv rest ih =>
      obtain ⟨k, v⟩ := kv
      by_cases h : k = ip <;> simp [cacheSet, h, ih]

/-- Writing back the value already stored is the identity. -/
theorem cacheSet_get_self (c : RateCache) (ip : String) (e : RateEntry)
    (h : cacheGet c ip = some e) : cacheSet c ip e = c := by
  induction c with
  | nil => simp [cacheGet] at h
  | cons kv rest ih =>
      obtain ⟨k, v⟩ := kv
      by_cases hk : k = ip
      · simp [cacheGet, hk] at h
        simp [cacheSet, hk, h]
      · simp [cacheGet, hk] at h
        simp [cacheSet, hk, ih h]

/-- Unfolding one sequential request. -/
theorem run_requests_cons (ip : String) (c : RateCache) (t : Int) (ts : List Int) :
    run_requests ip c (t :: ts) =
      ((rate_limit_step c ip t).1 :: (run_requests ip (rate_limit_step c ip t).2 ts).1,
       (run_requests ip (rate_limit_step c ip t).2 ts).2) := by
  simp [run_requests]

/-- Sequential processing splits over list concatenation. -/
theorem run_requests_append (ip : String) (l1 l2 : List Int) :
    ∀ cache, run_requests ip cache (l1 ++ l2) =
      ((run_requests ip cache l1).1 ++
        (run_requests ip (run_requests ip cache l1).2 l2).1,
       (run_requests ip (run_requests ip cache l1).2 l2).2) := by
  induction l1 with
  | nil => intro cache; simp [run_requests]
  | cons t rest ih => intro cache; simp [run_requests, ih]

/-- While the window holds and the admitted total stays at most 100, every
request is admitted and the counter advances by exactly the number of
requests, the window start untouched. -/
theorem run_admits (ip : String) (t0 : Int) :
    ∀ (ts : List Int) (cache : RateCache) (c : Nat),
      cacheGet cache ip = some ⟨c, t0⟩ →
      (∀ t ∈ ts, t - t0 < 60) →
      c + ts.length ≤ 100 →
      run_requests ip cache ts =
        (List.replicate ts.length RateResult.admitted,
         cacheSet cache ip ⟨c + ts.length, t0⟩) := by
  intro ts
  induction ts with
  | nil =>
      intro cache c hget _ _
      simp [run_requests, cacheSet_get_self cache ip _ hget]
  | cons t rest ih =>
      intro cache c hget hwin hle
      have h1 : t - t0 < 60 := hwin t (by simp)
      have h2 : ¬ (c ≥ 100) := by
        simp only [List.length_cons] at hle
        omega
      have hstep : rate_limit_step cache ip t =
          (RateResult.admitted, cacheSet cache ip ⟨c + 1, t0⟩) := by
        simp [rate_limit_step, hget, h1, h2]
      have hrec := ih (cacheSet cache ip ⟨c + 1, t0⟩) (c + 1)
        (cacheGet_cacheSet cache ip _)
        (fun x hx => hwin x (List.mem_cons_of_mem _ hx))
        (by simp only [List.length_cons] at hle; omega)
      have harith : c + 1 + rest.length = c + (rest.length + 1) := by omega
      simp only [run_requests, hstep, hrec, cacheSet_cacheSet, List.length_cons,
        List.replicate_succ, harith]

/-- C2: from no entry for the address, the first 100 requests inside the
60-second window are all admitted; the 101st inside the window is rejected
with 429 and leaves the counter at 100; and the first request 60 seconds
or more past the window start is admitted with the entry reset to count 1
and the instant of that request. -/
theorem rate_limiter_scenario (cache : RateCache) (ip : String) (t0 : Int)
    (mid : List Int) (tlast tnext : Int)
    (h0 : cacheGet cache ip = none)
    (hlen : mid.length = 99)
    (hmid : ∀ t ∈ mid, t0 ≤ t ∧ t - t0 < 60)
    (hlast1 : t0 ≤ tlast) (hlast2 : tlast - t0 < 60)
    (hnext : 60 ≤ tnext - t0) :
    (run_requests ip cache (t0 :: mid ++ [tlast])).1 =
      List.replicate 100 RateResult.admitted ++
        [RateResult.rejected 429 "Too many requests"] ∧
    cacheGet (run_requests ip cache (t0 :: mid ++ [tlast])).2 ip = some ⟨100, t0⟩ ∧
    (rate_limit_step (run_requests ip cache (t0 :: mid ++ [tlast])).2 ip tnext).1 =
      RateResult.admitted ∧
    cacheGet (rate_limit_step (run_requests ip cache (t0 :: mid ++ [tlast])).2 ip tnext).2 ip =
      some ⟨1, tnext⟩ := by
  have hstep0 : rate_limit_step cache ip t0 =
      (RateResult.admitted, cacheSet cache ip ⟨1, t0⟩) := by
    simp [rate_limit_step, h0]
  have hmid1 : run_requests ip (cacheSet cache ip ⟨1, t0⟩) mid =
      (List.replicate 99 RateResult.admitted, cacheSet cache ip ⟨100, t0⟩) := by
    have := run_admits ip t0 mid (cacheSet cache ip ⟨1, t0⟩) 1
      (cacheGet_cacheSet cache ip _)
      (fun t ht => (hmid t ht).2)
      (by omega)
    rw [hlen] at this
    rw [this, cacheSet_cacheSet]
  have hget100 : cacheGet (cacheSet cache ip ⟨100, t0⟩) ip = some ⟨100, t0⟩ :=
    cacheGet_cacheSet cache ip _
  have hsteplast : rate_limit_step (cacheSet cache ip ⟨100, t0⟩) ip tlast =
      (RateResult.rejected 429 "Too many requests", cacheSet cache ip ⟨100, t0⟩) := by
    simp [rate_limit_step, hget100, hlast2]
  have hrun : run_requests ip cache (t0 :: mid ++ [tlast]) =
      (List.replicate 100 RateResult.admitted ++
        [RateResult.rejected 429 "Too many requests"],
       cacheSet cache ip ⟨100, t0⟩) := by
    rw [run_requests_append ip (t0 :: mid) [tlast]]
    rw [run_requests_cons]
    simp only [hstep0, hmid1]
    rw [run_requests_cons]
    simp only [hsteplast, run_requests]
    rw [Prod.mk.injEq]
    refine ⟨?_, rfl⟩
    rw [← List.replicate_succ]
  have hreset : rate_limit_step (cacheSet cache ip ⟨100, t0⟩) ip tnext =
      (RateResult.admitted, cacheSet cache ip ⟨1, tnext⟩) := by
    have hout : ¬ (tnext - t0 < 60) := by omega
    simp [rate_limit_step, hget100, hout, cacheSet_cacheSet]
  refine ⟨by rw [hrun], by rw [hrun]; exact hget100, ?_, ?_⟩
  · rw [hrun]
    simp only [hreset]
  · rw [hrun]
    simp only [hreset]
    exact cacheGet_cacheSet cache ip _

/-- C2 witness: the scenario at address 1.2.3.4 starting from the empty
cache, with requests 2 through 100 at instant 30, the 101st at instant 59,
and the rollover request at instant 60. -/
theorem rate_limiter_scenario_witness :
    (run_requests "1.2.3.4" [] ((0 : Int) :: List.replicate 99 (30 : Int) ++ [(59 : Int)])).1 =
      List.replicate 100 RateResult.admitted ++
        [RateResult.rejected 429 "Too many requests"] ∧
    cacheGet (run_requests "1.2.3.4" [] ((0 : Int) :: List.replicate 99 (30 : Int) ++ [(59 : Int)])).2
        "1.2.3.4" = some ⟨100, 0⟩ ∧
    (rate_limit_step
        (run_requests "1.2.3.4" [] ((0 : Int) :: List.replicate 99 (30 : Int) ++ [(59 : Int)])).2
        "1.2.3.4" 60).1 = RateResult.admitted ∧
    cacheGet (rate_limit_step
        (run_requests "1.2.3.4" [] ((0 : Int) :: List.replicate 99 (30 : Int) ++ [(59 : Int)])).2
        "1.2.3.4" 60).2 "1.2.3.4" = some ⟨1, 60⟩ :=
  rate_limiter_scenario [] "1.2.3.4" 0 (List.replicate 99 (30 : Int)) 59 60
    (by rfl) (by simp) (by decide) (by decide) (by decide) (by decide)

end LibraryService

